import Mathlib

/-!
Verification of the scoring core of the Mind Studio questionnaire service
(`app.py`): answer-mapping construction, the 26-dimensional feature encoding,
the hybrid exact-match / cosine similarity score, and the rule-based profile
generator.  Python dicts are modelled as association lists with string keys and
integer values; floating-point arithmetic is modelled as exact real arithmetic
(so a NaN can never arise, and the NaN guards of the source are dead branches).
Fallible numeric operations (division, aggregates of an empty list) are also
given an `Option`-instrumented variant used to establish that no exception
escapes the core.
-/

namespace MindStudio

/-- An answer mapping: question identifier to chosen option value.
Models the Python dict `{question_id: option_value}`; keys are unique in any
mapping actually produced by `build_answer_vector`. -/
abbrev AnswerMap := List (String × Int)

/-- Models `answer_vector.get(qid, 0)`: the value stored for a key, defaulting to 0. -/
def lookupD : AnswerMap → String → Int
  | [], _ => 0
  | p :: rest, q => if p.1 = q then p.2 else lookupD rest q

/-- The key set of a mapping (`vec.keys()`). -/
def keys (A : AnswerMap) : List String := A.map Prod.fst

/-- The stored values of a mapping (`vec.values()`), in insertion order. -/
def vals (A : AnswerMap) : List Int := A.map Prod.snd

/-- Dict insertion: overwrite in place when the key is present (keeping its
original position, as a Python dict does), else append. -/
def dictInsert (m : AnswerMap) (k : String) (v : Int) : AnswerMap :=
  if k ∈ keys m then m.map (fun p => if p.1 = k then (k, v) else p) else m ++ [(k, v)]

/-- Models `build_answer_vector`: the dict comprehension
`{a.question_id: a.option_value for a in answers}` — last write wins. -/
def build_answer_vector (answers : List (String × Int)) : AnswerMap :=
  answers.foldl (fun m p => dictInsert m p.1 p.2) []

noncomputable section

/-- Models `np.mean`: the arithmetic mean of a list (`sum/length`). -/
def listMean (xs : List ℝ) : ℝ := xs.sum / xs.length

/-- Population variance, the quantity under `np.std`'s square root:
the mean of the squared deviations from the mean (divisor `n`). -/
def popVar (xs : List ℝ) : ℝ := listMean (xs.map (fun x => (x - listMean xs) ^ 2))

/-- Models `safe_std` from the source: 0 for lists of length at most 1, otherwise
`np.std` = the square root of the population variance.  Over exact reals the
variance is nonnegative, so the source's NaN fallback branch cannot fire. -/
def safe_std (xs : List ℝ) : ℝ := if xs.length ≤ 1 then 0 else Real.sqrt (popVar xs)

/-- Models `np.max` of a nonempty list (never applied to `[]` by the source). -/
def listMax : List ℝ → ℝ
  | [] => 0
  | x :: xs => xs.foldl max x

/-- Models `np.min` of a nonempty list (never applied to `[]` by the source). -/
def listMin : List ℝ → ℝ
  | [] => 0
  | x :: xs => xs.foldl min x

/-- Sum of squares of the entries of a vector. -/
def sumSq (xs : List ℝ) : ℝ := (xs.map (fun x => x ^ 2)).sum

/-- Models `np.linalg.norm`: the Euclidean norm. -/
def euclNorm (xs : List ℝ) : ℝ := Real.sqrt (sumSq xs)

/-- Componentwise dot product of two vectors. -/
def dot (xs ys : List ℝ) : ℝ := (List.zipWith (· * ·) xs ys).sum

/-- Models `sklearn.metrics.pairwise.cosine_similarity` of two row vectors:
the dot product over the product of norms, with a zero-norm row treated as
leaving the row unchanged (so the similarity is 0). -/
def cosineSim (xs ys : List ℝ) : ℝ :=
  if euclNorm xs = 0 ∨ euclNorm ys = 0 then 0
  else dot xs ys / (euclNorm xs * euclNorm ys)

/-- The canonical question order of the encoder. -/
def question_order : List String :=
  ["ack_1", "ack_2", "ack_3", "bp_1", "bp_2", "bp_3",
   "gd_1", "gd_2", "gd_3", "rc_1", "rc_2", "rc_3"]

/-- Base features: the raw answer for each canonical question, default 0. -/
def base_features (A : AnswerMap) : List ℝ :=
  question_order.map (fun q => (lookupD A q : ℝ))

/-- The list `ack_values`: the three acknowledgement-theme answers, default 0. -/
def ack_values (A : AnswerMap) : List ℝ :=
  [(lookupD A "ack_1" : ℝ), (lookupD A "ack_2" : ℝ), (lookupD A "ack_3" : ℝ)]

/-- The list `bp_values`: the three boundaries/priorities-theme answers, default 0. -/
def bp_values (A : AnswerMap) : List ℝ :=
  [(lookupD A "bp_1" : ℝ), (lookupD A "bp_2" : ℝ), (lookupD A "bp_3" : ℝ)]

/-- The list `gd_values`: the three growth/direction-theme answers, default 0. -/
def gd_values (A : AnswerMap) : List ℝ :=
  [(lookupD A "gd_1" : ℝ), (lookupD A "gd_2" : ℝ), (lookupD A "gd_3" : ℝ)]

/-- The list `rc_values`: the three relationships/communication-theme answers, default 0. -/
def rc_values (A : AnswerMap) : List ℝ :=
  [(lookupD A "rc_1" : ℝ), (lookupD A "rc_2" : ℝ), (lookupD A "rc_3" : ℝ)]

/-- Thematic features: mean and `safe_std` per theme, with the source's
(vacuous) emptiness guards on the means. -/
def thematic_features (A : AnswerMap) : List ℝ :=
  [if ack_values A = [] then 0 else listMean (ack_values A), safe_std (ack_values A),
   if bp_values A = [] then 0 else listMean (bp_values A), safe_std (bp_values A),
   if gd_values A = [] then 0 else listMean (gd_values A), safe_std (gd_values A),
   if rc_values A = [] then 0 else listMean (rc_values A), safe_std (rc_values A)]

/-- The list `all_values`: every stored answer value, as a real number. -/
def all_values (A : AnswerMap) : List ℝ := (vals A).map (fun v : Int => (v : ℝ))

/-- High-intensity ratio: fraction of stored values that are at least 2
(`len([v for v in all_values if v >= 2]) / len(all_values)`, 0 when empty). -/
def high_frac (A : AnswerMap) : ℝ :=
  if all_values A = [] then 0
  else (((all_values A).filter (fun v => decide (2 ≤ v))).length : ℝ) / ((all_values A).length : ℝ)

/-- Low-intensity ratio: fraction of stored values that are at most 1. -/
def low_frac (A : AnswerMap) : ℝ :=
  if all_values A = [] then 0
  else (((all_values A).filter (fun v => decide (v ≤ 1))).length : ℝ) / ((all_values A).length : ℝ)

/-- Pattern features: mean, variability, max, min and the two intensity
ratios of all stored values, each 0 for the empty mapping. -/
def pattern_features (A : AnswerMap) : List ℝ :=
  [if all_values A = [] then 0 else listMean (all_values A),
   safe_std (all_values A),
   if all_values A = [] then 0 else listMax (all_values A),
   if all_values A = [] then 0 else listMin (all_values A),
   high_frac A,
   low_frac A]

/-- The 26-entry feature vector before normalization. -/
def pre_features (A : AnswerMap) : List ℝ :=
  base_features A ++ thematic_features A ++ pattern_features A

/-- Models `build_ai_feature_vector`: the feature vector, divided by its Euclidean
norm when that norm exceeds `1e-10`, otherwise replaced by the zero vector. -/
def build_ai_feature_vector (A : AnswerMap) : List ℝ :=
  if 1e-10 < euclNorm (pre_features A) then
    (pre_features A).map (fun x => x / euclNorm (pre_features A))
  else
    (pre_features A).map (fun _ => 0)

/-- The set of question identifiers present in both mappings
(`set(vec_a.keys()) & set(vec_b.keys())`). -/
def sharedQ (A B : AnswerMap) : Finset String :=
  (keys A).toFinset ∩ (keys B).toFinset

/-- The `exact_ratio` of the source: the fraction of shared questions with
equal values, and 0 when no question is shared. -/
def exact_frac (A B : AnswerMap) : ℝ :=
  if (sharedQ A B).card = 0 then 0
  else (((sharedQ A B).filter (fun q => lookupD A q = lookupD B q)).card : ℝ) /
    ((sharedQ A B).card : ℝ)

/-- The `ai_similarity` of the source: cosine similarity of the two feature
vectors, replaced by the exact-match ratio when negative.  (The source also
replaces a NaN; over exact reals that branch is dead.) -/
def ai_sim (A B : AnswerMap) : ℝ :=
  if cosineSim (build_ai_feature_vector A) (build_ai_feature_vector B) < 0 then exact_frac A B
  else cosineSim (build_ai_feature_vector A) (build_ai_feature_vector B)

/-- The `combined_similarity` of the source: the asymmetric blend of the
exact-match ratio and the AI similarity. -/
def combined_sim (A B : AnswerMap) : ℝ :=
  if 0.9 ≤ exact_frac A B then exact_frac A B * 0.6 + ai_sim A B * 0.4
  else ai_sim A B * 0.6 + exact_frac A B * 0.4

/-- Models `compute_similarity`: 0 when either mapping is empty, 1 when some question
is shared and every shared question matches, otherwise the blend clamped
to the unit interval. -/
def compute_similarity (A B : AnswerMap) : ℝ :=
  if A = [] ∨ B = [] then 0
  else if (sharedQ A B).Nonempty ∧ 1 ≤ exact_frac A B then 1
  else max 0 (min 1 (combined_sim A B))

end

/-- The raw (unnormalized) accumulators of the profile generator. -/
structure DimAcc where
  emotional_clarity : Int
  stress_management : Int
  growth_mindset : Int
  boundaries : Int
  relationship_safety : Int
deriving DecidableEq

/-- The normalized dimension scores of the profile generator. -/
structure DimScores where
  emotional_clarity : ℚ
  stress_management : ℚ
  growth_mindset : ℚ
  boundaries : ℚ
  relationship_safety : ℚ
deriving DecidableEq

/-- One iteration of the accumulation loop of `generate_profile`: the four
independent membership tests on the question identifier, a boundaries answer
feeding both `boundaries` and `stress_management`. -/
def step_dims (d : DimAcc) (q : String) (v : Int) : DimAcc :=
  let d1 := if q ∈ ["ack_1", "ack_2", "ack_3"] then
    { d with emotional_clarity := d.emotional_clarity + v } else d
  let d2 := if q ∈ ["bp_1", "bp_2", "bp_3"] then
    { d1 with boundaries := d1.boundaries + v,
              stress_management := d1.stress_management + v } else d1
  let d3 := if q ∈ ["gd_1", "gd_2", "gd_3"] then
    { d2 with growth_mindset := d2.growth_mindset + v } else d2
  if q ∈ ["rc_1", "rc_2", "rc_3"] then
    { d3 with relationship_safety := d3.relationship_safety + v } else d3

/-- The accumulated dimension totals over all entries of the mapping. -/
def raw_dimensions (A : AnswerMap) : DimAcc :=
  A.foldl (fun d p => step_dims d p.1 p.2) ⟨0, 0, 0, 0, 0⟩

/-- Constant `max_per_question` of the source. -/
def max_per_question : Int := 3

/-- Constant `max_questions_per_dim` of the source. -/
def max_questions_per_dim : Int := 3

/-- Constant `max_score` of the source: the normalization divisor 9. -/
def max_score : Int := max_per_question * max_questions_per_dim

/-- One normalized score: `(v / max_score) if max_score else 0.0`. -/
def normalize_score (v : Int) : ℚ :=
  if max_score ≠ 0 then (v : ℚ) / (max_score : ℚ) else 0

/-- The five normalized dimension scores of `generate_profile`. -/
def normalized_dimensions (A : AnswerMap) : DimScores :=
  { emotional_clarity := normalize_score (raw_dimensions A).emotional_clarity,
    stress_management := normalize_score (raw_dimensions A).stress_management,
    growth_mindset := normalize_score (raw_dimensions A).growth_mindset,
    boundaries := normalize_score (raw_dimensions A).boundaries,
    relationship_safety := normalize_score (raw_dimensions A).relationship_safety }

/-- The summary sentences selected by the fixed thresholds, in the source's
fixed dimension order. -/
def summary_parts (n : DimScores) : List String :=
  (if 0.7 ≤ n.emotional_clarity then
     ["You show strong emotional awareness and reflection."]
   else if n.emotional_clarity ≤ 0.3 then
     ["You may be in a phase where your inner world feels unclear or heavy."]
   else []) ++
  (if 0.7 ≤ n.stress_management then
     ["You tend to recognize patterns in your stress and have some strategies to cope."]
   else if n.stress_management ≤ 0.3 then
     ["Stress may be building up in ways that are hard to manage sustainably."]
   else []) ++
  (if 0.7 ≤ n.growth_mindset then
     ["You seem to be growing a lot through self-reflection and change."]
   else if n.growth_mindset ≤ 0.3 then
     ["You might be feeling a bit stuck or unsure about your direction right now."]
   else []) ++
  (if 0.7 ≤ n.boundaries then
     ["You are actively thinking about protecting your time, energy, and peace."]
   else if n.boundaries ≤ 0.3 then
     ["There may be opportunities to set gentler boundaries for yourself."]
   else []) ++
  (if 0.7 ≤ n.relationship_safety then
     ["Safe and supportive connections seem important and present in your life."]
   else if n.relationship_safety ≤ 0.3 then
     ["You may be craving deeper understanding and safety in relationships."]
   else [])

/-- The generic fallback sentence of the summary. -/
def fallback_sentence : String :=
  "Your responses suggest a mix of strengths and growth areas across emotions, boundaries, stress, and relationships."

/-- Models `generate_profile`: the normalized dimension scores and the space-joined
summary string. -/
def generate_profile (A : AnswerMap) : DimScores × String :=
  let n := normalized_dimensions A
  let parts := summary_parts n
  (n, String.intercalate " " (if parts = [] then [fallback_sentence] else parts))

/-- The summed answer values of the entries whose identifier lies in a theme. -/
def theme_sum (A : AnswerMap) (S : List String) : Int :=
  ((A.filter (fun p => p.1 ∈ S)).map Prod.snd).sum

noncomputable section

/-- Modelled from the spec: the sample standard deviation named by §4.2
("the arithmetic mean and the sample standard deviation of that theme's
answer values"), i.e. the square root of the squared deviations summed and
divided by `n - 1`, with the spec's 0 fallback for fewer than 2 values. -/
def spec_sample_std (xs : List ℝ) : ℝ :=
  if xs.length ≤ 1 then 0
  else Real.sqrt ((xs.map (fun x => (x - listMean xs) ^ 2)).sum / ((xs.length : ℝ) - 1))

/-- Division, `none` on a zero divisor (a Python `ZeroDivisionError`). -/
def div? (a b : ℝ) : Option ℝ := if b = 0 then none else some (a / b)

/-- Instrumented `np.mean`, `none` on the empty list (a NaN in numpy). -/
def mean? (xs : List ℝ) : Option ℝ := if xs.length = 0 then none else some (listMean xs)

/-- Instrumented `safe_std`, with its internal `np.std` call made fallible: the guard
`len(values) <= 1` keeps the mean under the square root away from `[]`. -/
def std? (xs : List ℝ) : Option ℝ :=
  if xs.length ≤ 1 then some 0
  else (mean? (xs.map (fun x => (x - listMean xs) ^ 2))).map Real.sqrt

/-- Instrumented `np.max`, `none` on the empty list (a ValueError in numpy). -/
def max? (xs : List ℝ) : Option ℝ := if xs = [] then none else some (listMax xs)

/-- Instrumented `np.min`, `none` on the empty list (a ValueError in numpy). -/
def min? (xs : List ℝ) : Option ℝ := if xs = [] then none else some (listMin xs)

/-- Instrumented `build_ai_feature_vector` with every fallible numeric step explicit:
a `none` anywhere models an exception (or NaN) escaping the function. -/
def build_ai_feature_vector? (A : AnswerMap) : Option (List ℝ) := do
  let m1 ← if ack_values A = [] then some 0 else mean? (ack_values A)
  let s1 ← std? (ack_values A)
  let m2 ← if bp_values A = [] then some 0 else mean? (bp_values A)
  let s2 ← std? (bp_values A)
  let m3 ← if gd_values A = [] then some 0 else mean? (gd_values A)
  let s3 ← std? (gd_values A)
  let m4 ← if rc_values A = [] then some 0 else mean? (rc_values A)
  let s4 ← std? (rc_values A)
  let pm ← if all_values A = [] then some 0 else mean? (all_values A)
  let ps ← std? (all_values A)
  let px ← if all_values A = [] then some 0 else max? (all_values A)
  let pn ← if all_values A = [] then some 0 else min? (all_values A)
  let hr ← if all_values A = [] then some 0
    else (div? (((all_values A).filter (fun v => decide (2 ≤ v))).length : ℝ) ((all_values A).length : ℝ))
  let lr ← if all_values A = [] then some 0
    else (div? (((all_values A).filter (fun v => decide (v ≤ 1))).length : ℝ) ((all_values A).length : ℝ))
  let v := base_features A ++ [m1, s1, m2, s2, m3, s3, m4, s4] ++ [pm, ps, px, pn, hr, lr]
  if 1e-10 < euclNorm v then some (v.map (fun x => x / euclNorm v))
  else some (v.map (fun _ => 0))

/-- The `exact_ratio` computation with its division instrumented; the division
is only attempted when some question is shared, as in the source. -/
def exact_frac? (A B : AnswerMap) : Option ℝ :=
  if (sharedQ A B).Nonempty then
    div? (((sharedQ A B).filter (fun q => lookupD A q = lookupD B q)).card : ℝ)
      ((sharedQ A B).card : ℝ)
  else some 0

/-- The `try` block of `compute_similarity`: when either feature build fails,
the `except` clause returns the exact-match ratio instead of raising. -/
def try_similarity (A B : AnswerMap) (er : ℝ) : ℝ :=
  match build_ai_feature_vector? A, build_ai_feature_vector? B with
  | some fa, some fb =>
      let c := cosineSim fa fb
      let ai := if c < 0 then er else c
      max 0 (min 1 (if 0.9 ≤ er then er * 0.6 + ai * 0.4 else ai * 0.6 + er * 0.4))
  | _, _ => er

/-- Instrumented `compute_similarity` with every fallible numeric step explicit. -/
def compute_similarity? (A B : AnswerMap) : Option ℝ :=
  if A = [] ∨ B = [] then some 0
  else (exact_frac? A B).bind (fun er =>
    if (sharedQ A B).Nonempty ∧ 1 ≤ er then some 1
    else some (try_similarity A B er))

end

/-- One normalized profile score with the division instrumented; the division
is only attempted when `max_score` is nonzero, as in the source. -/
def normalize_score? (v : Int) : Option ℚ :=
  if max_score ≠ 0 then
    (if (max_score : ℚ) = 0 then none else some ((v : ℚ) / (max_score : ℚ)))
  else some 0

/-- Instrumented `generate_profile` with every fallible numeric step explicit. -/
def generate_profile? (A : AnswerMap) : Option (DimScores × String) := do
  let d := raw_dimensions A
  let ec ← normalize_score? d.emotional_clarity
  let sm ← normalize_score? d.stress_management
  let gm ← normalize_score? d.growth_mindset
  let bo ← normalize_score? d.boundaries
  let rs ← normalize_score? d.relationship_safety
  let n : DimScores := ⟨ec, sm, gm, bo, rs⟩
  let parts := summary_parts n
  some (n, String.intercalate " " (if parts = [] then [fallback_sentence] else parts))

/-- Instrumented `build_answer_vector`: the dict comprehension contains no
fallible operation. -/
def build_answer_vector? (answers : List (String × Int)) : Option AnswerMap :=
  some (build_answer_vector answers)

/-- The feature vector produced for a one-entry mapping whose single value is
0: every component vanishes except the low-intensity ratio. -/
noncomputable def eLast : List ℝ :=
  [0, 0, 0, 0, 0, 0, 0, 0, 0, 0, 0, 0, 0, 0, 0, 0, 0, 0, 0, 0, 0, 0, 0, 0, 0, 1]

theorem sumSq_nil : sumSq [] = 0 := by simp [sumSq]

theorem sumSq_cons (a : ℝ) (xs : List ℝ) : sumSq (a :: xs) = a ^ 2 + sumSq xs := by
  simp [sumSq]

theorem sumSq_nonneg (xs : List ℝ) : 0 ≤ sumSq xs := by
  unfold sumSq
  apply List.sum_nonneg
  intro x hx
  obtain ⟨y, _, rfl⟩ := List.mem_map.mp hx
  positivity

theorem euclNorm_nonneg (xs : List ℝ) : 0 ≤ euclNorm xs := Real.sqrt_nonneg _

theorem sq_euclNorm (xs : List ℝ) : euclNorm xs ^ 2 = sumSq xs :=
  Real.sq_sqrt (sumSq_nonneg xs)

theorem dot_nil_left (ys : List ℝ) : dot [] ys = 0 := by simp [dot]

theorem dot_nil_right (xs : List ℝ) : dot xs [] = 0 := by cases xs <;> simp [dot]

theorem dot_cons (a b : ℝ) (xs ys : List ℝ) :
    dot (a :: xs) (b :: ys) = a * b + dot xs ys := by simp [dot]

theorem dot_comm (xs : List ℝ) : ∀ ys : List ℝ, dot xs ys = dot ys xs := by
  induction xs with
  | nil => intro ys; rw [dot_nil_left, dot_nil_right]
  | cons a xs ih =>
    intro ys
    cases ys with
    | nil => rw [dot_nil_left, dot_nil_right]
    | cons b ys => rw [dot_cons, dot_cons, ih, mul_comm]

/-- Cauchy-Schwarz for the componentwise dot product of lists. -/
theorem dot_sq_le (xs : List ℝ) : ∀ ys : List ℝ, dot xs ys ^ 2 ≤ sumSq xs * sumSq ys := by
  induction xs with
  | nil => intro ys; simp [dot_nil_left, sumSq_nil]
  | cons a xs ih =>
    intro ys
    cases ys with
    | nil =>
      rw [dot_nil_right, sumSq_nil, mul_zero]
      simp
    | cons b ys =>
      rw [dot_cons, sumSq_cons, sumSq_cons]
      have hd := ih ys
      have hX := sumSq_nonneg xs
      have hY := sumSq_nonneg ys
      set d := dot xs ys
      set X := sumSq xs
      set Y := sumSq ys
      have key : 2 * (a * b) * d ≤ a ^ 2 * Y + b ^ 2 * X := by
        rcases le_or_lt (2 * (a * b) * d) 0 with hneg | hpos
        · have hpos2 : 0 ≤ a ^ 2 * Y + b ^ 2 * X := by positivity
          linarith
        · have h1 : 0 ≤ (a ^ 2 * Y - b ^ 2 * X) ^ 2 + 4 * a ^ 2 * b ^ 2 * (X * Y - d ^ 2) :=
            add_nonneg (sq_nonneg _) (mul_nonneg (by positivity) (by linarith))
          have husq : (2 * (a * b) * d) ^ 2 ≤ (a ^ 2 * Y + b ^ 2 * X) ^ 2 := by nlinarith [h1]
          have hu : 0 ≤ a ^ 2 * Y + b ^ 2 * X := by positivity
          nlinarith [husq, hpos, hu]
      nlinarith [key, hd]

theorem abs_dot_le (xs ys : List ℝ) : |dot xs ys| ≤ euclNorm xs * euclNorm ys := by
  have h := dot_sq_le xs ys
  rw [show |dot xs ys| = Real.sqrt (dot xs ys ^ 2) from (Real.sqrt_sq_eq_abs _).symm,
    euclNorm, euclNorm, ← Real.sqrt_mul (sumSq_nonneg xs)]
  exact Real.sqrt_le_sqrt h

theorem cosineSim_le_one (xs ys : List ℝ) : cosineSim xs ys ≤ 1 := by
  unfold cosineSim
  split_ifs with h
  · norm_num
  · push_neg at h
    have hx : 0 < euclNorm xs := (euclNorm_nonneg xs).lt_of_ne (Ne.symm h.1)
    have hy : 0 < euclNorm ys := (euclNorm_nonneg ys).lt_of_ne (Ne.symm h.2)
    rw [div_le_one (by positivity)]
    calc dot xs ys ≤ |dot xs ys| := le_abs_self _
    _ ≤ _ := abs_dot_le xs ys

theorem cosineSim_comm (xs ys : List ℝ) : cosineSim xs ys = cosineSim ys xs := by
  unfold cosineSim
  by_cases hx : euclNorm xs = 0 <;> by_cases hy : euclNorm ys = 0 <;>
    simp [hx, hy, dot_comm xs ys, mul_comm]

theorem sumSq_map_div (xs : List ℝ) (c : ℝ) :
    sumSq (xs.map (fun x => x / c)) = sumSq xs / c ^ 2 := by
  induction xs with
  | nil => simp [sumSq]
  | cons a xs ih =>
    rw [List.map_cons, sumSq_cons, sumSq_cons, ih, div_pow, add_div]

theorem euclNorm_normalize (xs : List ℝ) (h : 0 < euclNorm xs) :
    euclNorm (xs.map (fun x => x / euclNorm xs)) = 1 := by
  have hss : sumSq xs ≠ 0 := by
    intro h0
    rw [euclNorm, h0, Real.sqrt_zero] at h
    exact lt_irrefl 0 h
  rw [euclNorm, sumSq_map_div, sq_euclNorm, div_self hss, Real.sqrt_one]

theorem sumSq_map_zero (xs : List ℝ) : sumSq (xs.map (fun _ => (0:ℝ))) = 0 := by
  induction xs with
  | nil => simp [sumSq]
  | cons a xs ih => rw [List.map_cons, sumSq_cons, ih]; norm_num

theorem sumSq_append (xs ys : List ℝ) : sumSq (xs ++ ys) = sumSq xs + sumSq ys := by
  simp [sumSq]

/-- Each integer answer value is counted by exactly one of the two intensity
filters: it is either at least 2 or at most 1. -/
theorem filter_ge_add_filter_le (xs : List Int) :
    ((xs.map (fun v : Int => (v : ℝ))).filter (fun v => decide (2 ≤ v))).length
      + ((xs.map (fun v : Int => (v : ℝ))).filter (fun v => decide (v ≤ 1))).length
      = xs.length := by
  induction xs with
  | nil => simp
  | cons a xs ih =>
    rcases le_or_lt 2 a with h2 | h2
    · have hge : (2 : ℝ) ≤ (a : ℝ) := by exact_mod_cast h2
      have hle : ¬ ((a : ℝ) ≤ 1) := by exact_mod_cast (by omega : ¬ (a ≤ 1))
      simp only [List.map_cons, List.filter_cons]
      simp [hge, hle]
      omega
    · have hge : ¬ ((2 : ℝ) ≤ (a : ℝ)) := by exact_mod_cast (by omega : ¬ ((2:Int) ≤ a))
      have hle : (a : ℝ) ≤ 1 := by exact_mod_cast (by omega : a ≤ 1)
      simp only [List.map_cons, List.filter_cons]
      simp [hge, hle]
      omega

/-- For a non-empty mapping the two intensity ratios sum to exactly 1. -/
theorem high_frac_add_low_frac (A : AnswerMap) (h : A ≠ []) :
    high_frac A + low_frac A = 1 := by
  have hav : all_values A ≠ [] := by
    rw [all_values, ne_eq, List.map_eq_nil_iff, ← ne_eq, vals, ne_eq, List.map_eq_nil_iff]
    exact h
  have hlen : ((all_values A).length : ℝ) ≠ 0 := by
    rw [ne_eq, Nat.cast_eq_zero, List.length_eq_zero]
    exact hav
  unfold high_frac low_frac
  rw [if_neg hav, if_neg hav, div_add_div_same, div_eq_one_iff_eq hlen]
  have hcount := filter_ge_add_filter_le (vals A)
  rw [show all_values A = (vals A).map (fun v : Int => (v : ℝ)) from rfl, List.length_map]
  exact_mod_cast hcount

/-- The pre-normalization feature vector of a non-empty mapping has sum of
squares at least 1/2: the two intensity ratios alone contribute that much. -/
theorem sumSq_pre_features_ge (A : AnswerMap) (h : A ≠ []) :
    1 / 2 ≤ sumSq (pre_features A) := by
  have hsum := high_frac_add_low_frac A h
  have h1 : sumSq (pre_features A) =
      sumSq (base_features A) + sumSq (thematic_features A) + sumSq (pattern_features A) := by
    rw [pre_features, sumSq_append, sumSq_append]
  have h2 : sumSq (pattern_features A) =
      (if all_values A = [] then 0 else listMean (all_values A)) ^ 2
      + safe_std (all_values A) ^ 2
      + (if all_values A = [] then 0 else listMax (all_values A)) ^ 2
      + (if all_values A = [] then 0 else listMin (all_values A)) ^ 2
      + high_frac A ^ 2 + low_frac A ^ 2 := by
    rw [pattern_features]
    repeat rw [sumSq_cons]
    rw [sumSq_nil]
    ring
  nlinarith [sq_nonneg (high_frac A - low_frac A),
    sumSq_nonneg (base_features A), sumSq_nonneg (thematic_features A),
    sq_nonneg (if all_values A = [] then 0 else listMean (all_values A)),
    sq_nonneg (safe_std (all_values A)),
    sq_nonneg (if all_values A = [] then 0 else listMax (all_values A)),
    sq_nonneg (if all_values A = [] then 0 else listMin (all_values A))]

/-- For every non-empty mapping the encoder takes the normalization branch and
returns a vector of Euclidean norm exactly 1. -/
theorem euclNorm_build_of_ne_nil (A : AnswerMap) (h : A ≠ []) :
    euclNorm (build_ai_feature_vector A) = 1 := by
  have hs := sumSq_pre_features_ge A h
  have hpos : (1e-10 : ℝ) < euclNorm (pre_features A) := by
    rw [euclNorm]
    rw [Real.lt_sqrt (by norm_num)]
    nlinarith
  rw [build_ai_feature_vector, if_pos hpos]
  exact euclNorm_normalize _ (lt_trans (by norm_num) hpos)

theorem pre_single_zero : pre_features [("ack_1", 0)] = eLast := by
  norm_num [pre_features, base_features, question_order, thematic_features,
    ack_values, bp_values, gd_values, rc_values, pattern_features, all_values, vals,
    lookupD, listMean, popVar, safe_std, high_frac, low_frac, listMax, listMin,
    List.filter, Real.sqrt_zero, eLast]

theorem pre_foo_zero : pre_features [("foo", 0)] = eLast := by
  norm_num [pre_features, base_features, question_order, thematic_features,
    ack_values, bp_values, gd_values, rc_values, pattern_features, all_values, vals,
    lookupD, listMean, popVar, safe_std, high_frac, low_frac, listMax, listMin,
    List.filter, Real.sqrt_zero, eLast]

theorem sumSq_eLast : sumSq eLast = 1 := by norm_num [sumSq, eLast]

theorem euclNorm_eLast : euclNorm eLast = 1 := by
  rw [euclNorm, sumSq_eLast, Real.sqrt_one]

theorem build_single_zero : build_ai_feature_vector [("ack_1", 0)] = eLast := by
  rw [build_ai_feature_vector, pre_single_zero, euclNorm_eLast, if_pos (by norm_num)]
  norm_num [eLast]

theorem build_foo_zero : build_ai_feature_vector [("foo", 0)] = eLast := by
  rw [build_ai_feature_vector, pre_foo_zero, euclNorm_eLast, if_pos (by norm_num)]
  norm_num [eLast]

theorem cosineSim_eLast : cosineSim eLast eLast = 1 := by
  rw [cosineSim, if_neg (by rw [euclNorm_eLast]; norm_num)]
  rw [euclNorm_eLast]
  norm_num [dot, eLast]

theorem pre_nil : pre_features [] = List.replicate 26 (0:ℝ) := by
  norm_num [pre_features, base_features, question_order, thematic_features,
    ack_values, bp_values, gd_values, rc_values, pattern_features, all_values, vals,
    lookupD, listMean, popVar, safe_std, high_frac, low_frac, listMax, listMin,
    Real.sqrt_zero, List.replicate]

theorem euclNorm_build_nil : euclNorm (build_ai_feature_vector []) = 0 := by
  have h0 : euclNorm (pre_features []) = 0 := by
    rw [pre_nil]
    norm_num [euclNorm, sumSq, List.replicate, Real.sqrt_zero]
  rw [build_ai_feature_vector, h0, if_neg (by norm_num)]
  rw [euclNorm, sumSq_map_zero, Real.sqrt_zero]

theorem exact_frac_le_one (A B : AnswerMap) : exact_frac A B ≤ 1 := by
  rw [exact_frac]
  split_ifs with h
  · norm_num
  · have hc : 0 < ((sharedQ A B).card : ℝ) := by
      exact_mod_cast Nat.pos_of_ne_zero h
    rw [div_le_one hc]
    exact_mod_cast Finset.card_filter_le _ _

theorem exact_frac_nonneg (A B : AnswerMap) : 0 ≤ exact_frac A B := by
  rw [exact_frac]
  split_ifs with h
  · norm_num
  · positivity

theorem sharedQ_comm (A B : AnswerMap) : sharedQ A B = sharedQ B A :=
  Finset.inter_comm _ _

theorem sharedQ_self_nonempty (A : AnswerMap) (h : A ≠ []) : (sharedQ A A).Nonempty := by
  rw [sharedQ, Finset.inter_self]
  cases A with
  | nil => exact absurd rfl h
  | cons p rest => exact ⟨p.1, by simp [keys]⟩

theorem exact_frac_self (A : AnswerMap) (h : A ≠ []) : exact_frac A A = 1 := by
  have hne := sharedQ_self_nonempty A h
  have hc : (sharedQ A A).card ≠ 0 := Nat.pos_iff_ne_zero.mp (Finset.card_pos.mpr hne)
  rw [exact_frac, if_neg hc]
  rw [Finset.filter_true_of_mem (fun x _ => rfl)]
  rw [div_self (by exact_mod_cast hc)]

theorem exact_frac_comm (A B : AnswerMap) : exact_frac A B = exact_frac B A := by
  rw [exact_frac, exact_frac, sharedQ_comm]
  congr 1
  rw [Finset.filter_congr (fun x _ => by rw [eq_comm])]

theorem ai_sim_comm (A B : AnswerMap) : ai_sim A B = ai_sim B A := by
  rw [ai_sim, ai_sim,
    cosineSim_comm (build_ai_feature_vector A) (build_ai_feature_vector B),
    exact_frac_comm A B]

theorem combined_sim_comm (A B : AnswerMap) : combined_sim A B = combined_sim B A := by
  rw [combined_sim, combined_sim, exact_frac_comm A B, ai_sim_comm A B]

theorem length_pre_features (A : AnswerMap) : (pre_features A).length = 26 := by
  simp [pre_features, base_features, thematic_features, pattern_features, question_order]

theorem length_build (A : AnswerMap) : (build_ai_feature_vector A).length = 26 := by
  rw [build_ai_feature_vector]
  split_ifs <;> rw [List.length_map, length_pre_features]

/-- Claim C1: as stated ("including the empty mapping") the claim is false:
the guard `if not vec_a or not vec_b` makes the self-similarity of the empty
mapping 0, not 1. -/
theorem claim_C1_cex : compute_similarity ([] : AnswerMap) [] ≠ 1 := by
  simp [compute_similarity]

/-- Claim C1 (amended): self-similarity is exactly 1 for every non-empty
answer mapping; for the empty mapping the score is 0. -/
theorem claim_C1 (A : AnswerMap) :
    (A = [] → compute_similarity A A = 0) ∧ (A ≠ [] → compute_similarity A A = 1) := by
  constructor
  · intro h
    subst h
    simp [compute_similarity]
  · intro h
    rw [compute_similarity, if_neg (by simp [h]),
      if_pos ⟨sharedQ_self_nonempty A h, le_of_eq (exact_frac_self A h).symm⟩]

/-- Witness for claim C1 at concrete inputs. -/
theorem claim_C1_witness :
    compute_similarity ([] : AnswerMap) [] = 0 ∧
    compute_similarity [("ack_1", 2)] [("ack_1", 2)] = 1 :=
  ⟨(claim_C1 []).1 rfl, (claim_C1 [("ack_1", 2)]).2 (by simp)⟩

/-- Claim C2: as stated the claim is false: for a non-empty mapping whose
values are all 0 the low-intensity ratio is 1, so the encoder returns a unit
vector, not the zero vector. -/
theorem claim_C2_cex :
    euclNorm (build_ai_feature_vector [("ack_1", 0)]) = 1 ∧
    euclNorm (build_ai_feature_vector [("ack_1", 0)]) ≠ 0 := by
  rw [build_single_zero, euclNorm_eLast]
  norm_num

/-- Claim C2 (amended): the encoder returns a 26-component vector whose
Euclidean norm is exactly 1 for every non-empty mapping (even an all-zero
one), and the zero vector (norm 0) exactly for the empty mapping. -/
theorem claim_C2 (A : AnswerMap) :
    (build_ai_feature_vector A).length = 26 ∧
    (A = [] → euclNorm (build_ai_feature_vector A) = 0) ∧
    (A ≠ [] → euclNorm (build_ai_feature_vector A) = 1) :=
  ⟨length_build A,
   fun h => by rw [h]; exact euclNorm_build_nil,
   fun h => euclNorm_build_of_ne_nil A h⟩

/-- Witness for claim C2 at concrete inputs. -/
theorem claim_C2_witness :
    euclNorm (build_ai_feature_vector ([] : AnswerMap)) = 0 ∧
    euclNorm (build_ai_feature_vector [("gd_2", 1)]) = 1 :=
  ⟨(claim_C2 []).2.1 rfl, (claim_C2 [("gd_2", 1)]).2.2 (by simp)⟩

/-- Claim C3: `compute_similarity` is symmetric in its two arguments. -/
theorem claim_C3 (A B : AnswerMap) : compute_similarity A B = compute_similarity B A := by
  rw [compute_similarity, compute_similarity, sharedQ_comm, exact_frac_comm A B,
    combined_sim_comm A B]
  by_cases h : A = [] ∨ B = []
  · rw [if_pos h, if_pos (Or.symm h)]
  · rw [if_neg h, if_neg (fun hh => h (Or.symm hh))]

/-- Claim C4: the similarity score always lies in the closed interval
`[0, 1]`, for arbitrary (also negative or out-of-range) option values. -/
theorem claim_C4 (A B : AnswerMap) :
    0 ≤ compute_similarity A B ∧ compute_similarity A B ≤ 1 := by
  rw [compute_similarity]
  split_ifs with h1 h2
  · norm_num
  · norm_num
  · exact ⟨le_max_left 0 _, max_le (by norm_num) (min_le_left 1 _)⟩

/-- Claim C10: for every non-empty mapping the two intensity ratios sum to
exactly 1, the pre-normalization vector is therefore nonzero, and the encoder
returns a vector of unit norm — the zero branch is reachable only for the
empty mapping. -/
theorem claim_C10 (A : AnswerMap) (h : A ≠ []) :
    high_frac A + low_frac A = 1 ∧
    sumSq (pre_features A) ≠ 0 ∧
    euclNorm (build_ai_feature_vector A) = 1 := by
  refine ⟨high_frac_add_low_frac A h, ?_, euclNorm_build_of_ne_nil A h⟩
  have hs := sumSq_pre_features_ge A h
  intro h0
  rw [h0] at hs
  norm_num at hs

/-- Witness for claim C10 at a concrete input. -/
theorem claim_C10_witness :
    high_frac [("gd_1", 3)] + low_frac [("gd_1", 3)] = 1 ∧
    sumSq (pre_features [("gd_1", 3)]) ≠ 0 ∧
    euclNorm (build_ai_feature_vector [("gd_1", 3)]) = 1 :=
  claim_C10 [("gd_1", 3)] (by simp)

/-- Claim C5: whenever both mappings are non-empty, the short-circuit does not
fire, and the cosine similarity is not negative (so no fallback applies), the
similarity is the clamp of the asymmetric blend: exact ratio weighted 0.6 when
it is at least 0.9, and the AI similarity weighted 0.6 otherwise. -/
theorem claim_C5 (A B : AnswerMap) (hA : A ≠ []) (hB : B ≠ [])
    (her : exact_frac A B ≠ 1)
    (hcos : ¬ cosineSim (build_ai_feature_vector A) (build_ai_feature_vector B) < 0) :
    compute_similarity A B =
      max 0 (min 1 (if 0.9 ≤ exact_frac A B
        then exact_frac A B * 0.6 +
          cosineSim (build_ai_feature_vector A) (build_ai_feature_vector B) * 0.4
        else cosineSim (build_ai_feature_vector A) (build_ai_feature_vector B) * 0.6 +
          exact_frac A B * 0.4)) := by
  have hsc : ¬ ((sharedQ A B).Nonempty ∧ 1 ≤ exact_frac A B) := by
    rintro ⟨hne, hge⟩
    exact her (le_antisymm (exact_frac_le_one A B) hge)
  rw [compute_similarity, if_neg (by simp [hA, hB]), if_neg hsc, combined_sim, ai_sim,
    if_neg hcos]

/-- Witness for claim C5 at concrete inputs: two disjoint one-question
mappings with value 0, whose feature vectors coincide (cosine 1). -/
theorem claim_C5_witness :
    compute_similarity [("ack_1", 0)] [("foo", 0)] =
      max 0 (min 1 (if 0.9 ≤ exact_frac [("ack_1", 0)] [("foo", 0)]
        then exact_frac [("ack_1", 0)] [("foo", 0)] * 0.6 +
          cosineSim (build_ai_feature_vector [("ack_1", 0)])
            (build_ai_feature_vector [("foo", 0)]) * 0.4
        else cosineSim (build_ai_feature_vector [("ack_1", 0)])
          (build_ai_feature_vector [("foo", 0)]) * 0.6 +
          exact_frac [("ack_1", 0)] [("foo", 0)] * 0.4)) := by
  have her0 : exact_frac [("ack_1", 0)] [("foo", 0)] = 0 := by
    rw [exact_frac, (by decide : sharedQ [("ack_1", 0)] [("foo", 0)] = ∅)]
    simp
  have hcos1 : cosineSim (build_ai_feature_vector [("ack_1", 0)])
      (build_ai_feature_vector [("foo", 0)]) = 1 := by
    rw [build_single_zero, build_foo_zero, cosineSim_eLast]
  exact claim_C5 _ _ (by simp) (by simp) (by rw [her0]; norm_num) (by rw [hcos1]; norm_num)

/-- Claim C6: for mappings sharing no question identifier the exact ratio is
0, the result is the clamped blend with the 0 exact ratio contributing the
0.4-weighted term (no short-circuit), and the result is never 1. -/
theorem claim_C6 (A B : AnswerMap) (h : sharedQ A B = ∅) :
    exact_frac A B = 0 ∧
    compute_similarity A B = max 0 (min 1 (ai_sim A B * 0.6 + 0 * 0.4)) ∧
    compute_similarity A B ≠ 1 := by
  have her : exact_frac A B = 0 := by rw [exact_frac, h]; simp
  have hai_le : ai_sim A B ≤ 1 := by
    rw [ai_sim]
    split_ifs with hc
    · rw [her]; norm_num
    · exact cosineSim_le_one _ _
  have heq : compute_similarity A B = max 0 (min 1 (ai_sim A B * 0.6 + 0 * 0.4)) := by
    rw [compute_similarity]
    by_cases hAB : A = [] ∨ B = []
    · rw [if_pos hAB]
      have hz : cosineSim (build_ai_feature_vector A) (build_ai_feature_vector B) = 0 := by
        rcases hAB with hA | hB
        · rw [cosineSim, if_pos (Or.inl (by rw [hA, euclNorm_build_nil]))]
        · rw [cosineSim, if_pos (Or.inr (by rw [hB, euclNorm_build_nil]))]
      rw [ai_sim, hz, if_neg (by norm_num)]
      norm_num
    · rw [if_neg hAB,
        if_neg (by rintro ⟨hne, _⟩; rw [h] at hne; exact Finset.not_nonempty_empty hne),
        combined_sim, her, if_neg (by norm_num)]
  refine ⟨her, heq, ?_⟩
  have hub : compute_similarity A B ≤ 0.6 := by
    rw [heq]
    refine max_le (by norm_num) (le_trans (min_le_right _ _) (by nlinarith [hai_le]))
  intro h1
  rw [h1] at hub
  norm_num at hub

/-- Witness for claim C6 at concrete disjoint inputs. -/
theorem claim_C6_witness :
    exact_frac [("ack_1", 1)] [("bp_1", 1)] = 0 ∧
    compute_similarity [("ack_1", 1)] [("bp_1", 1)] =
      max 0 (min 1 (ai_sim [("ack_1", 1)] [("bp_1", 1)] * 0.6 + 0 * 0.4)) ∧
    compute_similarity [("ack_1", 1)] [("bp_1", 1)] ≠ 1 :=
  claim_C6 [("ack_1", 1)] [("bp_1", 1)] (by decide)

theorem theme_sum_cons (p : String × Int) (A : AnswerMap) (S : List String) :
    theme_sum (p :: A) S = (if p.1 ∈ S then p.2 else 0) + theme_sum A S := by
  rw [theme_sum, theme_sum]
  by_cases h : p.1 ∈ S <;> simp [List.filter_cons, h]

theorem step_dims_ec (d : DimAcc) (q : String) (v : Int) :
    (step_dims d q v).emotional_clarity =
      d.emotional_clarity + (if q ∈ ["ack_1", "ack_2", "ack_3"] then v else 0) := by
  rw [step_dims]
  by_cases h1 : q ∈ ["ack_1", "ack_2", "ack_3"] <;>
    by_cases h2 : q ∈ ["bp_1", "bp_2", "bp_3"] <;>
      by_cases h3 : q ∈ ["gd_1", "gd_2", "gd_3"] <;>
        by_cases h4 : q ∈ ["rc_1", "rc_2", "rc_3"] <;>
          simp [h1, h2, h3, h4]

theorem step_dims_sm (d : DimAcc) (q : String) (v : Int) :
    (step_dims d q v).stress_management =
      d.stress_management + (if q ∈ ["bp_1", "bp_2", "bp_3"] then v else 0) := by
  rw [step_dims]
  by_cases h1 : q ∈ ["ack_1", "ack_2", "ack_3"] <;>
    by_cases h2 : q ∈ ["bp_1", "bp_2", "bp_3"] <;>
      by_cases h3 : q ∈ ["gd_1", "gd_2", "gd_3"] <;>
        by_cases h4 : q ∈ ["rc_1", "rc_2", "rc_3"] <;>
          simp [h1, h2, h3, h4]

theorem step_dims_gm (d : DimAcc) (q : String) (v : Int) :
    (step_dims d q v).growth_mindset =
      d.growth_mindset + (if q ∈ ["gd_1", "gd_2", "gd_3"] then v else 0) := by
  rw [step_dims]
  by_cases h1 : q ∈ ["ack_1", "ack_2", "ack_3"] <;>
    by_cases h2 : q ∈ ["bp_1", "bp_2", "bp_3"] <;>
      by_cases h3 : q ∈ ["gd_1", "gd_2", "gd_3"] <;>
        by_cases h4 : q ∈ ["rc_1", "rc_2", "rc_3"] <;>
          simp [h1, h2, h3, h4]

theorem step_dims_bo (d : DimAcc) (q : String) (v : Int) :
    (step_dims d q v).boundaries =
      d.boundaries + (if q ∈ ["bp_1", "bp_2", "bp_3"] then v else 0) := by
  rw [step_dims]
  by_cases h1 : q ∈ ["ack_1", "ack_2", "ack_3"] <;>
    by_cases h2 : q ∈ ["bp_1", "bp_2", "bp_3"] <;>
      by_cases h3 : q ∈ ["gd_1", "gd_2", "gd_3"] <;>
        by_cases h4 : q ∈ ["rc_1", "rc_2", "rc_3"] <;>
          simp [h1, h2, h3, h4]

theorem step_dims_rs (d : DimAcc) (q : String) (v : Int) :
    (step_dims d q v).relationship_safety =
      d.relationship_safety + (if q ∈ ["rc_1", "rc_2", "rc_3"] then v else 0) := by
  rw [step_dims]
  by_cases h1 : q ∈ ["ack_1", "ack_2", "ack_3"] <;>
    by_cases h2 : q ∈ ["bp_1", "bp_2", "bp_3"] <;>
      by_cases h3 : q ∈ ["gd_1", "gd_2", "gd_3"] <;>
        by_cases h4 : q ∈ ["rc_1", "rc_2", "rc_3"] <;>
          simp [h1, h2, h3, h4]

theorem raw_foldl_ec (A : AnswerMap) : ∀ d : DimAcc,
    (A.foldl (fun d p => step_dims d p.1 p.2) d).emotional_clarity =
      d.emotional_clarity + theme_sum A ["ack_1", "ack_2", "ack_3"] := by
  induction A with
  | nil => intro d; simp [theme_sum]
  | cons p rest ih =>
    intro d
    rw [List.foldl_cons, ih, step_dims_ec, theme_sum_cons]
    ring

theorem raw_foldl_sm (A : AnswerMap) : ∀ d : DimAcc,
    (A.foldl (fun d p => step_dims d p.1 p.2) d).stress_management =
      d.stress_management + theme_sum A ["bp_1", "bp_2", "bp_3"] := by
  induction A with
  | nil => intro d; simp [theme_sum]
  | cons p rest ih =>
    intro d
    rw [List.foldl_cons, ih, step_dims_sm, theme_sum_cons]
    ring

theorem raw_foldl_gm (A : AnswerMap) : ∀ d : DimAcc,
    (A.foldl (fun d p => step_dims d p.1 p.2) d).growth_mindset =
      d.growth_mindset + theme_sum A ["gd_1", "gd_2", "gd_3"] := by
  induction A with
  | nil => intro d; simp [theme_sum]
  | cons p rest ih =>
    intro d
    rw [List.foldl_cons, ih, step_dims_gm, theme_sum_cons]
    ring

theorem raw_foldl_bo (A : AnswerMap) : ∀ d : DimAcc,
    (A.foldl (fun d p => step_dims d p.1 p.2) d).boundaries =
      d.boundaries + theme_sum A ["bp_1", "bp_2", "bp_3"] := by
  induction A with
  | nil => intro d; simp [theme_sum]
  | cons p rest ih =>
    intro d
    rw [List.foldl_cons, ih, step_dims_bo, theme_sum_cons]
    ring

theorem raw_foldl_rs (A : AnswerMap) : ∀ d : DimAcc,
    (A.foldl (fun d p => step_dims d p.1 p.2) d).relationship_safety =
      d.relationship_safety + theme_sum A ["rc_1", "rc_2", "rc_3"] := by
  induction A with
  | nil => intro d; simp [theme_sum]
  | cons p rest ih =>
    intro d
    rw [List.foldl_cons, ih, step_dims_rs, theme_sum_cons]
    ring

/-- Claim C7: every normalized dimension score is the per-theme sum of answer
values divided by 9; boundaries/priorities answers feed both `boundaries` and
`stress_management`, and identifiers outside the catalog feed no dimension. -/
theorem claim_C7 (A : AnswerMap) :
    normalized_dimensions A =
      { emotional_clarity := (theme_sum A ["ack_1", "ack_2", "ack_3"] : ℚ) / 9,
        stress_management := (theme_sum A ["bp_1", "bp_2", "bp_3"] : ℚ) / 9,
        growth_mindset := (theme_sum A ["gd_1", "gd_2", "gd_3"] : ℚ) / 9,
        boundaries := (theme_sum A ["bp_1", "bp_2", "bp_3"] : ℚ) / 9,
        relationship_safety := (theme_sum A ["rc_1", "rc_2", "rc_3"] : ℚ) / 9 } := by
  have hms : (max_score : ℚ) ≠ 0 := by
    norm_num [max_score, max_per_question, max_questions_per_dim]
  have hms9 : (max_score : ℚ) = 9 := by
    norm_num [max_score, max_per_question, max_questions_per_dim]
  have hns : ∀ v : Int, normalize_score v = (v : ℚ) / 9 := by
    intro v
    rw [normalize_score, if_pos (by exact_mod_cast hms), hms9]
  rw [normalized_dimensions]
  simp only [DimScores.mk.injEq]
  refine ⟨?_, ?_, ?_, ?_, ?_⟩ <;>
    rw [hns, raw_dimensions]
  · rw [raw_foldl_ec]
    norm_num
  · rw [raw_foldl_sm]
    norm_num
  · rw [raw_foldl_gm]
    norm_num
  · rw [raw_foldl_bo]
    norm_num
  · rw [raw_foldl_rs]
    norm_num

theorem ack_values_003 : ack_values [("ack_3", 3)] = [0, 0, 3] := by
  norm_num [ack_values, lookupD]
  decide

theorem safe_std_003 : safe_std [(0:ℝ), 0, 3] = Real.sqrt 2 := by
  rw [safe_std, if_neg (by norm_num)]
  norm_num [popVar, listMean]

theorem spec_sample_std_003 : spec_sample_std [(0:ℝ), 0, 3] = Real.sqrt 3 := by
  rw [spec_sample_std, if_neg (by norm_num)]
  norm_num [listMean]

theorem sqrt_two_ne_sqrt_three : Real.sqrt 2 ≠ Real.sqrt 3 := by
  intro heq
  have h2 := (Real.sqrt_inj (by norm_num) (by norm_num)).mp heq
  norm_num at h2

/-- Claim C8: as stated the claim is false: `np.std` computes the population
standard deviation (divisor `n`), not the sample standard deviation (divisor
`n - 1`).  For acknowledgement answers `(0, 0, 3)` the code's feature is
`sqrt 2` while the sample standard deviation is `sqrt 3`. -/
theorem claim_C8_cex :
    safe_std (ack_values [("ack_3", 3)]) ≠ spec_sample_std (ack_values [("ack_3", 3)]) ∧
    thematic_features [("ack_3", 3)] ≠
      [listMean (ack_values [("ack_3", 3)]), spec_sample_std (ack_values [("ack_3", 3)]),
       listMean (bp_values [("ack_3", 3)]), spec_sample_std (bp_values [("ack_3", 3)]),
       listMean (gd_values [("ack_3", 3)]), spec_sample_std (gd_values [("ack_3", 3)]),
       listMean (rc_values [("ack_3", 3)]), spec_sample_std (rc_values [("ack_3", 3)])] := by
  have hne : safe_std (ack_values [("ack_3", 3)]) ≠
      spec_sample_std (ack_values [("ack_3", 3)]) := by
    rw [ack_values_003, safe_std_003, spec_sample_std_003]
    exact sqrt_two_ne_sqrt_three
  refine ⟨hne, fun heq => ?_⟩
  rw [thematic_features] at heq
  simp only [List.cons.injEq] at heq
  exact hne heq.2.1

/-- Claim C8 (amended): the eight thematic features are, per theme, the
arithmetic mean and the population standard deviation (divisor `n = 3`) of the
three values looked up for the theme's identifiers with default 0; the
fewer-than-2-values branch of `safe_std` is vacuous since each theme list has
exactly 3 entries, and over exact reals no not-a-number can arise. -/
theorem claim_C8 (A : AnswerMap) :
    thematic_features A =
      [listMean (ack_values A),
       Real.sqrt (((ack_values A).map (fun x => (x - listMean (ack_values A)) ^ 2)).sum / 3),
       listMean (bp_values A),
       Real.sqrt (((bp_values A).map (fun x => (x - listMean (bp_values A)) ^ 2)).sum / 3),
       listMean (gd_values A),
       Real.sqrt (((gd_values A).map (fun x => (x - listMean (gd_values A)) ^ 2)).sum / 3),
       listMean (rc_values A),
       Real.sqrt (((rc_values A).map (fun x => (x - listMean (rc_values A)) ^ 2)).sum / 3)] := by
  have h3 : ∀ xs : List ℝ, xs.length = 3 →
      safe_std xs = Real.sqrt ((xs.map (fun x => (x - listMean xs) ^ 2)).sum / 3) := by
    intro xs h
    have hv : popVar xs = (xs.map (fun x => (x - listMean xs) ^ 2)).sum / 3 := by
      rw [popVar,
        show listMean (xs.map (fun x => (x - listMean xs) ^ 2)) =
          (xs.map (fun x => (x - listMean xs) ^ 2)).sum /
            ((xs.map (fun x => (x - listMean xs) ^ 2)).length : ℝ) from rfl,
        List.length_map, h]
      norm_num
    rw [safe_std, if_neg (by rw [h]; norm_num), hv]
  rw [thematic_features,
    if_neg (show ¬ ack_values A = [] by simp [ack_values]),
    if_neg (show ¬ bp_values A = [] by simp [bp_values]),
    if_neg (show ¬ gd_values A = [] by simp [gd_values]),
    if_neg (show ¬ rc_values A = [] by simp [rc_values]),
    h3 (ack_values A) (by simp [ack_values]),
    h3 (bp_values A) (by simp [bp_values]),
    h3 (gd_values A) (by simp [gd_values]),
    h3 (rc_values A) (by simp [rc_values])]

theorem std?_eq (xs : List ℝ) : std? xs = some (safe_std xs) := by
  rw [std?, safe_std]
  split_ifs with h
  · rfl
  · rw [mean?, if_neg (by rw [List.length_map]; omega), Option.map_some', popVar]

theorem build?_eq (A : AnswerMap) :
    build_ai_feature_vector? A = some (build_ai_feature_vector A) := by
  have hack : ¬ (ack_values A = []) := by simp [ack_values]
  have hbp : ¬ (bp_values A = []) := by simp [bp_values]
  have hgd : ¬ (gd_values A = []) := by simp [gd_values]
  have hrc : ¬ (rc_values A = []) := by simp [rc_values]
  have lack : ¬ ((ack_values A).length = 0) := by simp [ack_values]
  have lbp : ¬ ((bp_values A).length = 0) := by simp [bp_values]
  have lgd : ¬ ((gd_values A).length = 0) := by simp [gd_values]
  have lrc : ¬ ((rc_values A).length = 0) := by simp [rc_values]
  rw [build_ai_feature_vector?, build_ai_feature_vector, pre_features, thematic_features,
    pattern_features, high_frac, low_frac]
  by_cases hA : all_values A = []
  · simp only [mean?, std?_eq, max?, min?, div?, Option.bind_eq_bind', Option.some_bind,
      if_neg hack, if_neg hbp, if_neg hgd, if_neg hrc, if_neg lack, if_neg lbp,
      if_neg lgd, if_neg lrc, if_pos hA]
    split_ifs <;> rfl
  · have hlen : ¬ ((all_values A).length = 0) := by
      simpa [List.length_eq_zero] using hA
    have hlenR : ¬ (((all_values A).length : ℝ) = 0) := by exact_mod_cast hlen
    simp only [mean?, std?_eq, max?, min?, div?, Option.bind_eq_bind', Option.some_bind,
      if_neg hack, if_neg hbp, if_neg hgd, if_neg hrc, if_neg lack, if_neg lbp,
      if_neg lgd, if_neg lrc, if_neg hA, if_neg hlen, if_neg hlenR]
    split_ifs <;> rfl

theorem exact_frac?_eq (A B : AnswerMap) : exact_frac? A B = some (exact_frac A B) := by
  rw [exact_frac?, exact_frac]
  by_cases h : (sharedQ A B).Nonempty
  · have hc : (sharedQ A B).card ≠ 0 := Nat.pos_iff_ne_zero.mp (Finset.card_pos.mpr h)
    rw [if_pos h, if_neg hc, div?, if_neg (by exact_mod_cast hc)]
  · have hc : (sharedQ A B).card = 0 := by
      rw [Finset.not_nonempty_iff_eq_empty] at h
      rw [h, Finset.card_empty]
    rw [if_neg h, if_pos hc]

theorem compute_similarity?_eq (A B : AnswerMap) :
    compute_similarity? A B = some (compute_similarity A B) := by
  rw [compute_similarity?, compute_similarity, exact_frac?_eq, Option.some_bind]
  by_cases h1 : A = [] ∨ B = []
  · rw [if_pos h1, if_pos h1]
  · rw [if_neg h1, if_neg h1]
    by_cases h2 : (sharedQ A B).Nonempty ∧ 1 ≤ exact_frac A B
    · rw [if_pos h2, if_pos h2]
    · rw [if_neg h2, if_neg h2, try_similarity, build?_eq A, build?_eq B,
        combined_sim, ai_sim]

theorem normalize_score?_eq (v : Int) : normalize_score? v = some (normalize_score v) := by
  rw [normalize_score?, normalize_score]
  norm_num [max_score, max_per_question, max_questions_per_dim]

theorem generate_profile?_eq (A : AnswerMap) :
    generate_profile? A = some (generate_profile A) := by
  rw [generate_profile?]
  simp only [normalize_score?_eq, Option.some_bind]
  rfl

/-- Claim C9: every fallible numeric step of the four core operations is
guarded, so each instrumented operation returns `some` of the pure result on
every input: no exception (`none`) escapes the core's boundary. -/
theorem claim_C9 (ps : List (String × Int)) (A B : AnswerMap) :
    build_answer_vector? ps = some (build_answer_vector ps) ∧
    build_ai_feature_vector? A = some (build_ai_feature_vector A) ∧
    compute_similarity? A B = some (compute_similarity A B) ∧
    generate_profile? A = some (generate_profile A) :=
  ⟨rfl, build?_eq A, compute_similarity?_eq A B, generate_profile?_eq A⟩

end MindStudio
